import Mathlib

/-!
# errorCollection: a sequential model of `src/errorCollection/errorCollection.go`

The Go package keeps errors in a queue, hands them to handler functions through
goroutines, and stops those goroutines by closing a channel.

The embedding is shallow and sequential.

* A Go call is a list of statements run by `runBody`, which keeps the stack of
  deferred calls and unwinds it when a statement panics, so that the place of a
  `defer` inside a body matters exactly as it does in Go.
* Channels are values (`Chan`): a buffer, a capacity and a closed flag.
* Goroutines are not run concurrently.  `go` records the started goroutine in
  `Sys.tasks`; one pass through the loop of each goroutine is a function
  (`catchErrorIter`, `handleIter`, `handleChainIter`) that a schedule applies.
* The two mutexes (`ec.M` and the queue's own) are never contended in a
  sequential run: `Lock` and `Unlock` are kept as statements that leave the
  state alone, so that the bodies can be compared with the source line by line.
* Two things the package calls are not under `src`. The queue library is
  modelled from the contract the spec gives for it (`Queue`); `errorx.Wrap` is a
  parameter `Wrap` of the functions that call it, and `errorxWrap` models it
  from the spec where a concrete annotation is needed.
* `E` is the type of the non-nil error values and `W` the type of the world the
  handlers act on; a handler is a function that returns.
-/

namespace ErrorX

/-! ## Go runtime: panics, defer, recover -/

/-- The way a Go call ends: the state it leaves behind and, when a panic leaves
the call, the panic value. `panic = none` means the call returned normally. -/
structure Outcome (S : Type) where
  state : S
  panic : Option String

/-- A deferred function call. `run` is its effect when `recover()` has nothing to
recover (or is never called); a deferred function that calls `recover()` stops a
panic in flight and then has the effect `onRecover` of the panic value. -/
structure Deferred (S : Type) where
  run : S → S
  recovers : Bool
  onRecover : String → S → S

/-- One statement of a function body. -/
inductive Stmt (S : Type) where
  | exec (f : S → Outcome S)
  | deferCall (d : Deferred S)

/-- Runs the deferred calls, last registered first. A panic in flight goes on
until a deferred call recovers it. -/
def unwind {S : Type} : List (Deferred S) → Option String → S → Outcome S
  | [], p, s => ⟨s, p⟩
  | d :: ds, none, s => unwind ds none (d.run s)
  | d :: ds, some msg, s =>
    if d.recovers then unwind ds none (d.onRecover msg s)
    else unwind ds (some msg) (d.run s)

/-- Runs a function body. `defers` holds the deferred calls registered so far,
the latest first. A statement that panics stops the body and unwinds through the
calls registered before it, and only those. -/
def runBody {S : Type} : List (Stmt S) → List (Deferred S) → S → Outcome S
  | [], defers, s => unwind defers none s
  | Stmt.exec f :: rest, defers, s =>
    match f s with
    | ⟨s', none⟩ => runBody rest defers s'
    | ⟨s', some msg⟩ => unwind defers (some msg) s'
  | Stmt.deferCall d :: rest, defers, s => runBody rest (d :: defers) s

/-- A statement that cannot panic. -/
def Stmt.pure {S : Type} (f : S → S) : Stmt S :=
  Stmt.exec (fun s => ⟨f s, none⟩)

/-! ## Values -/

/-- A Go interface value of type `error`: `none` is the nil interface. -/
abbrev GoError (E : Type) := Option E

/-- Buffered Go channel. -/
structure Chan (α : Type) where
  buf : List α
  cap : Nat
  closed : Bool

/-- The value of `make(chan T, cap)`: open and empty. -/
def Chan.make {α : Type} (cap : Nat) : Chan α :=
  ⟨[], cap, false⟩

/-- The builtin `close(c)`: closing a closed channel panics. -/
def Chan.close {α : Type} (c : Chan α) : Outcome (Chan α) :=
  if c.closed then ⟨c, some "close of closed channel"⟩
  else ⟨{ c with closed := true }, none⟩

/-- A send on the channel can proceed: the buffer has room. -/
def Chan.sendReady {α : Type} (c : Chan α) : Bool :=
  decide (c.buf.length < c.cap)

/-- The channel after `c <- v` has proceeded. -/
def Chan.send {α : Type} (c : Chan α) (v : α) : Chan α :=
  { c with buf := c.buf ++ [v] }

/-- The receive `<-c` when it can proceed: the oldest buffered value, or the zero
value of a closed and drained channel, with the channel after it. `none` when the
receive has to wait. -/
def Chan.recv {α : Type} (zero : α) (c : Chan α) : Option (α × Chan α) :=
  match c.buf with
  | v :: vs => some (v, { c with buf := vs })
  | [] => if c.closed then some (zero, c) else none

/-- Modelled from the spec: the wrapped queue `queue.Queue` of
github.com/fwhezfwhez/go-queue, which is not under src. Section 4.1 of the spec
gives its contract: a FIFO of values whose capacity only sizes the first
allocation. The values stored by this package are the `error` values given to
`Add`, so an item is a `GoError`. -/
structure Queue (E : Type) where
  Data : List (GoError E)
  cap : Nat

/-- Modelled from the spec: `queue.NewCap(n)`, a fresh empty queue. -/
def Queue.NewCap {E : Type} (n : Nat) : Queue E :=
  ⟨[], n⟩

/-- Modelled from the spec: `Length()` returns the current count. -/
def Queue.Length {E : Type} (q : Queue E) : Nat :=
  q.Data.length

/-- Modelled from the spec: `SafeLength()` returns the current count, under the queue's lock. -/
def Queue.SafeLength {E : Type} (q : Queue E) : Nat :=
  q.Data.length

/-- Modelled from the spec: `Push(v)` appends to the tail. -/
def Queue.Push {E : Type} (q : Queue E) (v : GoError E) : Queue E :=
  { q with Data := q.Data ++ [v] }

/-- Modelled from the spec: `Pop()` removes and returns the head, and returns nil
when the queue is empty. -/
def Queue.Pop {E : Type} (q : Queue E) : GoError E × Queue E :=
  match q.Data with
  | [] => (none, q)
  | v :: vs => (v, { q with Data := vs })

/-- Modelled from the spec: `SafeValidHead()` returns the head without removing
it; the second component tells whether there was one (the Go call returns a
non-nil error when there is none). -/
def Queue.SafeValidHead {E : Type} (q : Queue E) : GoError E × Bool :=
  match q.Data with
  | [] => (none, false)
  | v :: _ => (v, true)

/-- The type assertion `x.(error)`: it panics on the nil interface. -/
def assertError {E : Type} (x : GoError E) : Except String E :=
  match x with
  | none => Except.error "interface conversion: interface is nil, not error"
  | some e => Except.ok e

/-! ## The collection -/

/-- The Go type `ErrorHandler func(e error)`: a handler acts on the world `W`. -/
abbrev ErrorHandler (E W : Type) := GoError E → W → W

/-- The struct `ErrorCollection` (the mutex `M` is left out, see the header). -/
structure ErrorCollection (E W : Type) where
  errors : Queue E
  ErrorHandleChain : List (ErrorHandler E W)
  HasErrorChan : Chan (GoError E)
  CatchErrorChan : Chan (GoError E)
  AutoHandleChan : Chan Int
  AutoHandleFlag : Bool

/-- The goroutines this package starts. -/
inductive Task (E W : Type) where
  | dispatch
  | handle (f : ErrorHandler E W)
  | chain

/-- A started goroutine, with the stop signal `ec.AutoHandleChan` as it was when
the `go` statement ran. -/
structure Spawned (E W : Type) where
  task : Task E W
  stopAtStart : Chan Int

/-- The process state: the collection, the log sink, the world the handlers act
on, and the goroutines started so far in start order. -/
structure Sys (E W : Type) where
  ec : ErrorCollection E W
  log : List String
  world : W
  tasks : List (Spawned E W)

/-- The function `NewCollection()`. -/
def NewCollection {E W : Type} : ErrorCollection E W where
  errors := Queue.NewCap 200
  ErrorHandleChain := []
  HasErrorChan := Chan.make 1
  CatchErrorChan := Chan.make 1
  AutoHandleChan := Chan.make 1
  AutoHandleFlag := false

/-- The process right after `NewCollection()`: no goroutine has been started. -/
def fresh {E W : Type} (log : List String) (w : W) : Sys E W :=
  ⟨NewCollection, log, w, []⟩

/-- The calls `log.Println` and `log.Printf`. -/
def logLine {E W : Type} (line : String) (s : Sys E W) : Sys E W :=
  { s with log := s.log ++ [line] }

/-- The call `M.Lock()` on a mutex nobody holds. -/
def Lock {E W : Type} (s : Sys E W) : Sys E W := s

/-- The call `M.Unlock()`. -/
def Unlock {E W : Type} (s : Sys E W) : Sys E W := s

/-- A deferred `Unlock()`: it never recovers a panic. -/
def deferUnlock {E W : Type} : Deferred (Sys E W) :=
  ⟨Unlock, false, fun _ s => Unlock s⟩

/-- The method `SafeLength()`. -/
def SafeLength {E W : Type} (s : Sys E W) : Nat :=
  s.ec.errors.SafeLength

/-- The method `Length()`. -/
def Length {E W : Type} (s : Sys E W) : Nat :=
  s.ec.errors.Length

/-- The behaviour of the queue's `Push` seen from `Add`: the queue it leaves and
the panic it raises, if any. -/
abbrev PushImpl (E : Type) := Queue E → GoError E → Outcome (Queue E)

/-- The push of the queue modelled from the spec: it never panics. -/
def queuePush {E : Type} : PushImpl E :=
  fun q v => ⟨q.Push v, none⟩

/-- The deferred function of `Add`: `if r := recover(); r != nil { log.Printf(...) }`. -/
def recoverAndLog {E W : Type} : Deferred (Sys E W) :=
  ⟨id, true, fun r s => logLine ("catch a panic：" ++ r) s⟩

/-- The statement `(*queue.Queue)(ec.errors).Push(e)`. -/
def pushStmt {E W : Type} (push : PushImpl E) (e : GoError E) : Stmt (Sys E W) :=
  Stmt.exec (fun s =>
    ⟨{ s with ec := { s.ec with errors := (push s.ec.errors e).state } },
      (push s.ec.errors e).panic⟩)

/-- The method `Add(e)`: the push comes first, the `defer` after it. -/
def Add {E W : Type} (push : PushImpl E) (e : GoError E) (s : Sys E W) : Outcome (Sys E W) :=
  runBody [pushStmt push e, Stmt.deferCall recoverAndLog] [] s

/-- The body of `Pop` after the lock is taken; the second component is the
return value. -/
def popBody {E W : Type} (Wrap : GoError E → GoError E) (s : Sys E W × GoError E) :
    Outcome (Sys E W × GoError E) :=
  if Length s.1 > 0 then
    let s' : Sys E W := { s.1 with ec := { s.1.ec with errors := s.1.ec.errors.Pop.2 } }
    match assertError s.1.ec.errors.Pop.1 with
    | Except.error msg => ⟨(s', none), some msg⟩
    | Except.ok e => ⟨(s', Wrap (some e)), none⟩
  else ⟨(s.1, none), none⟩

/-- The method `Pop()`. `Wrap` is `errorx.Wrap`, which is not under src. The
result holds the state and the returned error. -/
def Pop {E W : Type} (Wrap : GoError E → GoError E) (s : Sys E W) :
    Outcome (Sys E W × GoError E) :=
  runBody
    [Stmt.pure (fun p => (Lock p.1, p.2)),
     Stmt.deferCall ⟨fun p => (Unlock p.1, p.2), false, fun _ p => (Unlock p.1, p.2)⟩,
     Stmt.exec (popBody Wrap)] [] (s, none)

/-- The method `GetError()`. -/
def GetError {E W : Type} (Wrap : GoError E → GoError E) (s : Sys E W) :
    Outcome (Sys E W × GoError E) :=
  if Length s ≠ 0 then
    match assertError s.ec.errors.SafeValidHead.1 with
    | Except.error msg => ⟨(s, none), some msg⟩
    | Except.ok e => ⟨(s, Wrap (some e)), none⟩
  else ⟨(s, none), none⟩

/-- The method `Clear()`. -/
def Clear {E W : Type} (s : Sys E W) : Outcome (Sys E W) :=
  runBody
    [Stmt.pure Lock,
     Stmt.deferCall deferUnlock,
     Stmt.pure (fun s => { s with ec := { s.ec with errors := Queue.NewCap 500 } })] [] s

/-- The method `AddHandler(handler...)`. -/
def AddHandler {E W : Type} (handler : List (ErrorHandler E W)) (s : Sys E W) :
    Outcome (Sys E W) :=
  runBody
    [Stmt.pure Lock,
     Stmt.deferCall deferUnlock,
     Stmt.pure (fun s =>
       { s with ec := { s.ec with ErrorHandleChain := s.ec.ErrorHandleChain ++ handler } })] [] s

/-- The method `newAutoHandleChan()`. -/
def newAutoHandleChan {E W : Type} (s : Sys E W) : Sys E W :=
  { s with ec := { s.ec with AutoHandleChan := Chan.make 1 } }

/-- The method `safeNewAutoHandleChan()`. -/
def safeNewAutoHandleChan {E W : Type} (s : Sys E W) : Outcome (Sys E W) :=
  runBody [Stmt.pure Lock, Stmt.deferCall deferUnlock, Stmt.pure newAutoHandleChan] [] s

/-- The statement `close(ec.AutoHandleChan)`. -/
def closeStop {E W : Type} (s : Sys E W) : Outcome (Sys E W) :=
  ⟨{ s with ec := { s.ec with AutoHandleChan := s.ec.AutoHandleChan.close.state } },
    s.ec.AutoHandleChan.close.panic⟩

/-- The method `CloseHandles()`: the only deferred call is the `Unlock`. -/
def CloseHandles {E W : Type} (s : Sys E W) : Outcome (Sys E W) :=
  runBody [Stmt.pure Lock, Stmt.deferCall deferUnlock, Stmt.exec closeStop] [] s

/-- The statement `go func() ...`: the goroutine is started and finds the stop
signal the collection holds at that moment. -/
def go {E W : Type} (t : Task E W) (s : Sys E W) : Sys E W :=
  { s with tasks := s.tasks ++ [⟨t, s.ec.AutoHandleChan⟩] }

/-- The method `CatchError()` as a statement: it starts the dispatch goroutine
(the channel it returns is `ec.CatchErrorChan`). -/
def CatchError {E W : Type} (s : Sys E W) : Sys E W :=
  go Task.dispatch s

/-- The method `Handle(f)`. -/
def Handle {E W : Type} (f : ErrorHandler E W) (s : Sys E W) : Outcome (Sys E W) :=
  runBody
    [Stmt.pure Lock,
     Stmt.pure newAutoHandleChan,
     Stmt.pure CatchError,
     Stmt.pure Unlock,
     Stmt.pure (go (Task.handle f))] [] s

/-- The method `HandleChain()`. -/
def HandleChain {E W : Type} (s : Sys E W) : Outcome (Sys E W) :=
  runBody
    [Stmt.pure newAutoHandleChan,
     Stmt.pure CatchError,
     Stmt.pure (go Task.chain)] [] s

/-! ## One pass through the loop of each goroutine -/

/-- The way one pass through a goroutine's loop ends. -/
inductive Iter (E W : Type) where
  -- the pass is over and the loop goes on
  | next (s : Sys E W)
  -- the pass took `break L`: the goroutine is over
  | exit (s : Sys E W)
  -- no case of the `select` can proceed: the goroutine waits
  | waiting (s : Sys E W)
  -- the dispatch goroutine waits in `ec.CatchErrorChan <- v`, holding `v`
  | sending (v : GoError E) (s : Sys E W)
  -- the goroutine panics
  | fault (msg : String) (s : Sys E W)

/-- The state a pass leaves when the loop goes on after it. -/
def Iter.goesOn {E W : Type} : Iter E W → Option (Sys E W)
  | Iter.next s => some s
  | _ => none

/-- Whether the pass ended the goroutine through `break L`. -/
def Iter.isExit {E W : Type} : Iter E W → Bool
  | Iter.exit _ => true
  | _ => false

/-- The state after the receive `<-ec.AutoHandleChan` and the log line of the
branch that follows it. -/
def stopBranch {E W : Type} (line : String) (c : Chan Int) (s : Sys E W) : Sys E W :=
  logLine line { s with ec := { s.ec with AutoHandleChan := c } }

/-- One pass through the loop of the goroutine of `CatchError`: a `select` with a
`default`, so the stop case is taken exactly when it can proceed. -/
def catchErrorIter {E W : Type} (Wrap : GoError E → GoError E) (s : Sys E W) : Iter E W :=
  match s.ec.AutoHandleChan.recv 0 with
  | some (_, c) => Iter.exit (stopBranch "close error catching by auto handle chan" c s)
  | none =>
    if Length (Lock s) > 0 then
      match Pop Wrap (Lock s) with
      | ⟨(s', v), none⟩ =>
        if s'.ec.CatchErrorChan.sendReady then
          Iter.next (Unlock
            { s' with ec := { s'.ec with CatchErrorChan := s'.ec.CatchErrorChan.send v } })
        else Iter.sending v s'
      | ⟨(s', _), some msg⟩ => Iter.fault msg s'
    else Iter.next (Unlock (Lock s))

/-- The loop body `for _, f := range ec.ErrorHandleChain { f(e) }`. -/
def runChain {E W : Type} (chain : List (ErrorHandler E W)) (e : GoError E) (w : W) : W :=
  chain.foldl (fun w f => f e w) w

/-- The state after `e := <-ec.CatchErrorChan` and the branch `body` run on `e`. -/
def recvBranch {E W : Type} (body : GoError E → W → W) (e : GoError E)
    (c : Chan (GoError E)) (s : Sys E W) : Sys E W :=
  { s with ec := { s.ec with CatchErrorChan := c }, world := body e s.world }

/-- The `select` in the goroutine of `Handle(f)`. When both cases can proceed Go
picks one at random: `pick` says whether it is the first one written. -/
def handleIter {E W : Type} (f : ErrorHandler E W) (pick : Bool) (s : Sys E W) : Iter E W :=
  match s.ec.AutoHandleChan.recv 0, s.ec.CatchErrorChan.recv none with
  | none, none => Iter.waiting s
  | some (_, c), none => Iter.exit (stopBranch "handle finish by auto handle chan" c s)
  | none, some (e, c) => Iter.next (recvBranch f e c s)
  | some (_, c), some (e, c') =>
    if pick then Iter.exit (stopBranch "handle finish by auto handle chan" c s)
    else Iter.next (recvBranch f e c' s)

/-- The `select` in the goroutine of `HandleChain()`, after its channel
expressions are evaluated. The receive from the conduit is the first case. -/
def handleChainSelect {E W : Type} (pick : Bool) (s : Sys E W) : Iter E W :=
  match s.ec.CatchErrorChan.recv none, s.ec.AutoHandleChan.recv 0 with
  | none, none => Iter.waiting s
  | some (e, c), none => Iter.next (recvBranch (runChain s.ec.ErrorHandleChain) e c s)
  | none, some (_, c) => Iter.exit (stopBranch "handleChain finish by auto handle chan" c s)
  | some (e, c), some (_, c') =>
    if pick then Iter.next (recvBranch (runChain s.ec.ErrorHandleChain) e c s)
    else Iter.exit (stopBranch "handleChain finish by auto handle chan" c' s)

/-- One pass through the loop of the goroutine of `HandleChain()`: entering the
`select` evaluates `ec.CatchError()`, which starts one more dispatch goroutine. -/
def handleChainIter {E W : Type} (pick : Bool) (s : Sys E W) : Iter E W :=
  handleChainSelect pick (CatchError s)

/-! ## Callers -/

/-- The calls `Add(e1); ...; Add(en)` in a row; a panic ends the run. -/
def addAll {E W : Type} (push : PushImpl E) : List (GoError E) → Sys E W → Outcome (Sys E W)
  | [], s => ⟨s, none⟩
  | e :: es, s =>
    match Add push e s with
    | ⟨s', none⟩ => addAll push es s'
    | ⟨s', some msg⟩ => ⟨s', some msg⟩

/-- The call `Pop()` made `n` times in a row: the state left and the errors
returned, in call order; a panic ends the run. -/
def popN {E W : Type} (Wrap : GoError E → GoError E) :
    Nat → Sys E W → Outcome (Sys E W × List (GoError E))
  | 0, s => ⟨(s, []), none⟩
  | n + 1, s =>
    match Pop Wrap s with
    | ⟨(s', r), none⟩ =>
      ⟨((popN Wrap n s').state.1, r :: (popN Wrap n s').state.2), (popN Wrap n s').panic⟩
    | ⟨(s', _), some msg⟩ => ⟨(s', []), some msg⟩

/-- A handler that writes its number and the error it is called with at the end
of a trace. -/
def tracer {E : Type} (i : Nat) : ErrorHandler E (List (Nat × GoError E)) :=
  fun e w => w ++ [(i, e)]

/-- The state `s` with `d` as the content of its buffer. -/
def setData {E W : Type} (d : List (GoError E)) (s : Sys E W) : Sys E W :=
  { s with ec := { s.ec with errors := { s.ec.errors with Data := d } } }

/-- A push that panics, as `Push` does on the nil `*queue.Queue` of a zero-value
`ErrorCollection`. -/
def panickingPush {E : Type} : PushImpl E :=
  fun q _ => ⟨q, some "runtime error: invalid memory address or nil pointer dereference"⟩

/-- The body of `Add` with its two statements in the other order: the `defer`
first, the push after it. -/
def addDeferFirst {E W : Type} (push : PushImpl E) (e : GoError E) (s : Sys E W) :
    Outcome (Sys E W) :=
  runBody [Stmt.deferCall recoverAndLog, pushStmt push e] [] s

/-- The session of the chain scenario: `AddHandler(h1, h2)`, `HandleChain()`,
`Add(e)`, then one pass of the dispatch goroutine and one pass of the chain
consumer. The result is the state after the consumer's pass. -/
def chainSession {E W : Type} (Wrap : GoError E → GoError E) (pick : Bool)
    (h1 h2 : ErrorHandler E W) (e : GoError E) (s : Sys E W) : Option (Sys E W) :=
  (catchErrorIter Wrap
      (Add queuePush e (HandleChain (AddHandler [h1, h2] s).state).state).state).goesOn.bind
    (fun s' => (handleChainIter pick s').goesOn)

/-- A state whose conduit holds two errors and whose chain holds two tracing
handlers. -/
def conduitDemo : Sys Nat (List (Nat × GoError Nat)) :=
  ⟨{ errors := Queue.NewCap 200,
     ErrorHandleChain := [tracer 1, tracer 2],
     HasErrorChan := Chan.make 1,
     CatchErrorChan := ⟨[some 4, some 5], 2, false⟩,
     AutoHandleChan := Chan.make 1,
     AutoHandleFlag := false }, [], [], []⟩

/-! ## Lemmas -/

section Lemmas

variable {E W : Type}

theorem setData_self (s : Sys E W) : setData s.ec.errors.Data s = s := by
  rfl

theorem setData_ec_data (d : List (GoError E)) (s : Sys E W) :
    (setData d s).ec.errors.Data = d := by
  rfl

theorem setData_setData (d d' : List (GoError E)) (s : Sys E W) :
    setData d (setData d' s) = setData d s := by
  rfl

theorem Add_queuePush (e : GoError E) (s : Sys E W) :
    Add queuePush e s = ⟨setData (s.ec.errors.Data ++ [e]) s, none⟩ := by
  rfl

theorem addAll_queuePush (es : List (GoError E)) (s : Sys E W) :
    addAll queuePush es s = ⟨setData (s.ec.errors.Data ++ es) s, none⟩ := by
  induction es generalizing s with
  | nil => simp [addAll, setData_self]
  | cons e es ih =>
    simp [addAll, Add_queuePush, ih, setData_ec_data, setData_setData]

theorem Pop_of_nil (Wrap : GoError E → GoError E) (s : Sys E W)
    (h : s.ec.errors.Data = []) : Pop Wrap s = ⟨(s, none), none⟩ := by
  simp [Pop, runBody, unwind, Stmt.pure, popBody, Length, Queue.Length, Lock, Unlock, h]

theorem Pop_of_cons (Wrap : GoError E → GoError E) (s : Sys E W) (e : E)
    (rest : List (GoError E)) (h : s.ec.errors.Data = some e :: rest) :
    Pop Wrap s = ⟨(setData rest s, Wrap (some e)), none⟩ := by
  simp [Pop, runBody, unwind, Stmt.pure, popBody, Length, Queue.Length, Lock, Unlock, h,
    Queue.Pop, assertError, setData]

theorem Pop_of_nil_head (Wrap : GoError E → GoError E) (s : Sys E W)
    (rest : List (GoError E)) (h : s.ec.errors.Data = none :: rest) :
    Pop Wrap s = ⟨(setData rest s, none),
      some "interface conversion: interface is nil, not error"⟩ := by
  simp [Pop, runBody, unwind, Stmt.pure, popBody, Length, Queue.Length, Lock, Unlock, h,
    Queue.Pop, assertError, setData]

theorem GetError_of_nil (Wrap : GoError E → GoError E) (s : Sys E W)
    (h : s.ec.errors.Data = []) : GetError Wrap s = ⟨(s, none), none⟩ := by
  simp [GetError, Length, Queue.Length, h]

theorem GetError_of_nil_head (Wrap : GoError E → GoError E) (s : Sys E W)
    (rest : List (GoError E)) (h : s.ec.errors.Data = none :: rest) :
    GetError Wrap s = ⟨(s, none), some "interface conversion: interface is nil, not error"⟩ := by
  simp [GetError, Length, Queue.Length, h, Queue.SafeValidHead, assertError]

theorem popN_of_errors (Wrap : GoError E → GoError E) (es : List E) (rest : List (GoError E))
    (s : Sys E W) (h : s.ec.errors.Data = es.map some ++ rest) :
    popN Wrap es.length s = ⟨(setData rest s, es.map (fun e => Wrap (some e))), none⟩ := by
  induction es generalizing s with
  | nil =>
    simp at h
    simp [popN, ← h, setData_self]
  | cons e es ih =>
    have hpop := Pop_of_cons Wrap s e (es.map some ++ rest) (by simpa using h)
    have hrec := ih (setData (es.map some ++ rest) s) (setData_ec_data _ _)
    simp [popN, hpop, hrec, setData_setData]

theorem runChain_tracer (ids : List Nat) (e : GoError E) (w : List (Nat × GoError E)) :
    runChain (ids.map tracer) e w = w ++ ids.map (fun i => (i, e)) := by
  induction ids generalizing w with
  | nil => simp [runChain]
  | cons i ids ih =>
    have h := ih (w ++ [(i, e)])
    simp only [runChain] at h
    simp [runChain, tracer, h]

theorem catchErrorIter_not_exit (Wrap : GoError E → GoError E) (s : Sys E W)
    (h : s.ec.AutoHandleChan.recv 0 = none) : (catchErrorIter Wrap s).isExit = false := by
  unfold catchErrorIter
  rw [h]
  dsimp only
  split
  · split
    · split <;> rfl
    · rfl
  · rfl

theorem handleIter_not_exit (f : ErrorHandler E W) (pick : Bool) (s : Sys E W)
    (h : s.ec.AutoHandleChan.recv 0 = none) : (handleIter f pick s).isExit = false := by
  unfold handleIter
  rw [h]
  split <;> simp_all [Iter.isExit]

theorem handleChainIter_not_exit (pick : Bool) (s : Sys E W)
    (h : s.ec.AutoHandleChan.recv 0 = none) : (handleChainIter pick s).isExit = false := by
  have h' : (CatchError s).ec.AutoHandleChan.recv 0 = none := h
  unfold handleChainIter handleChainSelect
  rw [h']
  split <;> simp_all [Iter.isExit]

theorem Add_panics_of_push_panics (push : PushImpl E) (e : GoError E) (s : Sys E W)
    (msg : String) (h : (push s.ec.errors e).panic = some msg) :
    (Add push e s).panic = some msg ∧ (Add push e s).state.log = s.log := by
  unfold Add
  simp only [runBody, pushStmt]
  split
  · rename_i heq
    simp only [Outcome.mk.injEq] at heq
    rw [h] at heq
    exact absurd heq.2 (by simp)
  · rename_i s' m heq
    simp only [Outcome.mk.injEq] at heq
    rw [h] at heq
    simp only [Option.some.injEq] at heq
    obtain ⟨hs, hm⟩ := heq
    subst hs hm
    exact ⟨rfl, rfl⟩

theorem addDeferFirst_recovers (push : PushImpl E) (e : GoError E) (s : Sys E W) :
    (addDeferFirst push e s).panic = none := by
  unfold addDeferFirst
  simp only [runBody, pushStmt]
  split
  · rfl
  · simp [unwind, recoverAndLog]

end Lemmas

/-! ## The buffer: Add, Pop, GetError, Clear -/

/-- C1. On a fresh collection with no goroutine started, `Add(e1), ..., Add(en)`
all return normally, and the `n` calls of `Pop()` that follow return normally the
errors `e1, ..., en` in that order, each as annotated by `errorx.Wrap`; after
them the buffer is empty (the state is the fresh one again). -/
theorem fifo_add_then_pop {E W : Type} (Wrap : GoError E → GoError E) (log : List String)
    (w : W) (es : List E) :
    (addAll queuePush (es.map some) (fresh log w)).panic = none ∧
    popN Wrap es.length (addAll queuePush (es.map some) (fresh log w)).state
      = ⟨(fresh log w, es.map (fun e => Wrap (some e))), none⟩ ∧
    (popN Wrap es.length
      (addAll queuePush (es.map some) (fresh log w)).state).state.1.ec.errors.Data = [] ∧
    Length (popN Wrap es.length
      (addAll queuePush (es.map some) (fresh log w)).state).state.1 = 0 := by
  have hadd := addAll_queuePush (es.map some) (fresh log w)
  have hpop := popN_of_errors Wrap es [] (addAll queuePush (es.map some) (fresh log w)).state
    (by rw [hadd]; simp [setData_ec_data, fresh, NewCollection, Queue.NewCap])
  have hback : setData [] (addAll queuePush (es.map some) (fresh log w)).state = fresh log w := by
    rw [hadd]
    rfl
  rw [hback] at hpop
  refine ⟨by rw [hadd], hpop, ?_, ?_⟩
  · rw [hpop]
    rfl
  · rw [hpop]
    rfl

/-- C3. On an empty buffer `Pop()` and `GetError()` return nil without a panic
and leave the state, hence the empty buffer, as it is. This covers a fresh
collection, a collection just cleared, and a collection from which every added
error has been popped. -/
theorem empty_pop_getError_nil :
    (∀ (E W : Type) (Wrap : GoError E → GoError E) (s : Sys E W), s.ec.errors.Data = [] →
      Pop Wrap s = ⟨(s, none), none⟩ ∧ GetError Wrap s = ⟨(s, none), none⟩) ∧
    (∀ (E W : Type) (Wrap : GoError E → GoError E) (log : List String) (w : W),
      Pop Wrap (fresh log w) = ⟨(fresh log w, none), none⟩ ∧
      GetError Wrap (fresh log w) = ⟨(fresh log w, none), none⟩) ∧
    (∀ (E W : Type) (Wrap : GoError E → GoError E) (s : Sys E W),
      Pop Wrap (Clear s).state = ⟨((Clear s).state, none), none⟩ ∧
      GetError Wrap (Clear s).state = ⟨((Clear s).state, none), none⟩) ∧
    (∀ (E W : Type) (Wrap : GoError E → GoError E) (log : List String) (w : W) (es : List E),
      Pop Wrap (popN Wrap es.length
          (addAll queuePush (es.map some) (fresh log w)).state).state.1
        = ⟨(fresh log w, none), none⟩ ∧
      GetError Wrap (popN Wrap es.length
          (addAll queuePush (es.map some) (fresh log w)).state).state.1
        = ⟨(fresh log w, none), none⟩) := by
  refine ⟨?_, ?_, ?_, ?_⟩
  · intro E W Wrap s h
    exact ⟨Pop_of_nil Wrap s h, GetError_of_nil Wrap s h⟩
  · intro E W Wrap log w
    exact ⟨Pop_of_nil Wrap _ rfl, GetError_of_nil Wrap _ rfl⟩
  · intro E W Wrap s
    exact ⟨Pop_of_nil Wrap _ rfl, GetError_of_nil Wrap _ rfl⟩
  · intro E W Wrap log w es
    have hadd := addAll_queuePush (es.map some) (fresh log w)
    have hpop := popN_of_errors Wrap es [] (addAll queuePush (es.map some) (fresh log w)).state
      (by rw [hadd]; simp [setData_ec_data, fresh, NewCollection, Queue.NewCap])
    have hback : setData [] (addAll queuePush (es.map some) (fresh log w)).state
        = fresh log w := by
      rw [hadd]
      rfl
    rw [hback] at hpop
    rw [hpop]
    exact ⟨Pop_of_nil Wrap _ rfl, GetError_of_nil Wrap _ rfl⟩

/-- A run of C3: a collection whose buffer was emptied by hand. -/
theorem empty_pop_getError_nil_witness :
    (setData [] (fresh ["x"] () : Sys Nat Unit)).ec.errors.Data = [] ∧
    (Pop id (setData [] (fresh ["x"] () : Sys Nat Unit))).state.2 = none ∧
    (Pop id (setData [] (fresh ["x"] () : Sys Nat Unit))).panic = none :=
  ⟨rfl,
   by rw [(empty_pop_getError_nil.1 Nat Unit id (setData [] (fresh ["x"] ())) rfl).1],
   by rw [(empty_pop_getError_nil.1 Nat Unit id (setData [] (fresh ["x"] ())) rfl).1]⟩

/-- C4. In every state `GetError()` leaves the whole state as it was, whether it
returns or panics: the buffered errors are the same sequence, and `Length()` and
`SafeLength()` give after the call what they gave before it. -/
theorem getError_leaves_buffer {E W : Type} (Wrap : GoError E → GoError E) (s : Sys E W) :
    (GetError Wrap s).state.1 = s ∧
    (GetError Wrap s).state.1.ec.errors.Data = s.ec.errors.Data ∧
    Length (GetError Wrap s).state.1 = Length s ∧
    SafeLength (GetError Wrap s).state.1 = SafeLength s := by
  have h : (GetError Wrap s).state.1 = s := by
    unfold GetError
    split
    · split <;> rfl
    · rfl
  rw [h]
  exact ⟨rfl, rfl, rfl, rfl⟩

/-- C5. In every state, whatever the buffer holds, `Clear()` returns normally and
after it `Length()` and `SafeLength()` are 0, the buffer is empty, and a
following `Pop()` or `GetError()` returns nil without a panic. -/
theorem clear_then_length_zero {E W : Type} (Wrap : GoError E → GoError E) (s : Sys E W) :
    (Clear s).panic = none ∧
    Length (Clear s).state = 0 ∧
    SafeLength (Clear s).state = 0 ∧
    (Clear s).state.ec.errors.Data = [] ∧
    Pop Wrap (Clear s).state = ⟨((Clear s).state, none), none⟩ ∧
    GetError Wrap (Clear s).state = ⟨((Clear s).state, none), none⟩ :=
  ⟨rfl, rfl, rfl, rfl, Pop_of_nil Wrap _ rfl, GetError_of_nil Wrap _ rfl⟩

/-! ## Handlers and sessions -/

/-- C6. `AddHandler` returns normally and puts its arguments at the end of the
handler chain in argument order. When the consumer of `HandleChain()` receives an
error from the conduit it calls every handler of the chain once, in chain order,
with that error: a chain of tracing handlers adds exactly one line for each
handler, in order. After `AddHandler(h1, h2)`, `HandleChain()` and one `Add(e)`,
the dispatch pass and the consumer pass leave the world as `h1` then `h2` make
it, both called with the error received, and the buffer and the conduit empty. -/
theorem handlers_run_in_order :
    (∀ (E W : Type) (hs : List (ErrorHandler E W)) (s : Sys E W),
      (AddHandler hs s).panic = none ∧
      (AddHandler hs s).state.ec.ErrorHandleChain = s.ec.ErrorHandleChain ++ hs) ∧
    (∀ (E : Type) (ids : List Nat) (e : GoError E) (w : List (Nat × GoError E)),
      runChain (ids.map tracer) e w = w ++ ids.map (fun i => (i, e))) ∧
    (∀ (E W : Type) (pick : Bool) (s : Sys E W) (e : GoError E) (rest : List (GoError E)),
      s.ec.CatchErrorChan.buf = e :: rest →
      (pick = true ∨ s.ec.AutoHandleChan.recv 0 = none) →
      ((handleChainIter pick s).goesOn.map (fun s' => s'.world)
        = some (runChain s.ec.ErrorHandleChain e s.world) ∧
       (handleChainIter pick s).goesOn.map (fun s' => s'.ec.CatchErrorChan.buf) = some rest)) ∧
    (∀ (E W : Type) (Wrap : GoError E → GoError E) (pick : Bool) (h1 h2 : ErrorHandler E W)
        (e : E) (log : List String) (w : W),
      (chainSession Wrap pick h1 h2 (some e) (fresh log w)).map (fun s' => s'.world)
        = some (h2 (Wrap (some e)) (h1 (Wrap (some e)) w)) ∧
      (chainSession Wrap pick h1 h2 (some e) (fresh log w)).map
          (fun s' => (s'.ec.errors.Data, s'.ec.CatchErrorChan.buf))
        = some ([], [])) ∧
    (∀ (E : Type) (Wrap : GoError E → GoError E) (pick : Bool) (e : E) (log : List String),
      (chainSession Wrap pick (tracer 1) (tracer 2) (some e) (fresh log [])).map
          (fun s' => s'.world)
        = some [(1, Wrap (some e)), (2, Wrap (some e))]) := by
  refine ⟨?_, ?_, ?_, ?_, ?_⟩
  · intro E W hs s
    exact ⟨rfl, rfl⟩
  · intro E ids e w
    exact runChain_tracer ids e w
  · intro E W pick s e rest hbuf hpick
    have hrecv : (CatchError s).ec.CatchErrorChan.recv none
        = some (e, { s.ec.CatchErrorChan with buf := rest }) := by
      show s.ec.CatchErrorChan.recv none = _
      simp [Chan.recv, hbuf]
    unfold handleChainIter handleChainSelect
    rw [hrecv]
    rcases hpick with hp | hstop
    · subst hp
      cases hs : (CatchError s).ec.AutoHandleChan.recv 0 with
      | none => exact ⟨rfl, rfl⟩
      | some p => exact ⟨rfl, rfl⟩
    · have hstop' : (CatchError s).ec.AutoHandleChan.recv 0 = none := hstop
      rw [hstop']
      exact ⟨rfl, rfl⟩
  · intro E W Wrap pick h1 h2 e log w
    exact ⟨rfl, rfl⟩
  · intro E Wrap pick e log
    rfl

/-- A run of C6: two errors wait in the conduit and the consumer takes the oldest. -/
theorem handlers_run_in_order_witness :
    conduitDemo.ec.CatchErrorChan.buf = some 4 :: [some 5] ∧
    (handleChainIter true conduitDemo).goesOn.map (fun s' => s'.world)
      = some [(1, some 4), (2, some 4)] :=
  ⟨rfl, (handlers_run_in_order.2.2.1 Nat (List (Nat × GoError Nat)) true conduitDemo
    (some 4) [some 5] rfl (Or.inl rfl)).1⟩

/-- C7. On a collection whose stop signal is open `CloseHandles()` returns
normally and leaves the signal closed; a second `CloseHandles()` right after it,
with no session started in between, panics with the close of a closed channel,
and the panic leaves `CloseHandles` (its only deferred call is the `Unlock`). -/
theorem closeHandles_twice_faults {E W : Type} (s : Sys E W)
    (h : s.ec.AutoHandleChan.closed = false) :
    (CloseHandles s).panic = none ∧
    (CloseHandles s).state.ec.AutoHandleChan.closed = true ∧
    (CloseHandles (CloseHandles s).state).panic = some "close of closed channel" := by
  have h1 : CloseHandles s
      = ⟨{ s with ec := { s.ec with
            AutoHandleChan := { s.ec.AutoHandleChan with closed := true } } }, none⟩ := by
    simp [CloseHandles, runBody, unwind, Stmt.pure, closeStop, Chan.close, h, Lock,
      deferUnlock, Unlock]
  rw [h1]
  refine ⟨rfl, rfl, ?_⟩
  simp [CloseHandles, runBody, unwind, Stmt.pure, closeStop, Chan.close, Lock, deferUnlock,
    Unlock]

/-- A run of C7 on a fresh collection. -/
theorem closeHandles_twice_faults_witness :
    (fresh [] () : Sys Nat Unit).ec.AutoHandleChan.closed = false ∧
    (CloseHandles (fresh [] () : Sys Nat Unit)).panic = none ∧
    (CloseHandles (CloseHandles (fresh [] () : Sys Nat Unit)).state).panic
      = some "close of closed channel" :=
  ⟨rfl, (closeHandles_twice_faults (fresh [] ()) rfl).1,
    (closeHandles_twice_faults (fresh [] ()) rfl).2.2⟩

/-- C8. In every state, also one whose stop signal is closed, `Handle(f)` and
`HandleChain()` return normally and leave a fresh open stop signal; the
goroutines they start are started after the replacement (each finds the fresh
signal when it is started); the first pass of each of those goroutines does not
take the stop branch; and in `CloseHandles(); Handle(f); CloseHandles()`, or the
same with `HandleChain()`, the session start and the second `CloseHandles()`
return normally whatever the state, as does the first one when the signal is
open. -/
theorem session_start_resets_stop_signal :
    (∀ (E W : Type) (Wrap : GoError E → GoError E) (f : ErrorHandler E W) (pick : Bool)
        (s : Sys E W),
      (Handle f s).panic = none ∧
      (Handle f s).state.ec.AutoHandleChan = Chan.make 1 ∧
      (Handle f s).state.tasks
        = s.tasks ++ [⟨Task.dispatch, Chan.make 1⟩, ⟨Task.handle f, Chan.make 1⟩] ∧
      (catchErrorIter Wrap (Handle f s).state).isExit = false ∧
      (handleIter f pick (Handle f s).state).isExit = false ∧
      (Handle f (CloseHandles s).state).panic = none ∧
      (CloseHandles (Handle f (CloseHandles s).state).state).panic = none) ∧
    (∀ (E W : Type) (Wrap : GoError E → GoError E) (pick : Bool) (s : Sys E W),
      (HandleChain s).panic = none ∧
      (HandleChain s).state.ec.AutoHandleChan = Chan.make 1 ∧
      (HandleChain s).state.tasks
        = s.tasks ++ [⟨Task.dispatch, Chan.make 1⟩, ⟨Task.chain, Chan.make 1⟩] ∧
      (catchErrorIter Wrap (HandleChain s).state).isExit = false ∧
      (handleChainIter pick (HandleChain s).state).isExit = false ∧
      (HandleChain (CloseHandles s).state).panic = none ∧
      (CloseHandles (HandleChain (CloseHandles s).state).state).panic = none) ∧
    (∀ (E W : Type) (s : Sys E W), s.ec.AutoHandleChan.closed = false →
      (CloseHandles s).panic = none) := by
  refine ⟨?_, ?_, ?_⟩
  · intro E W Wrap f pick s
    refine ⟨rfl, rfl, ?_, ?_, ?_, rfl, rfl⟩
    · simp [Handle, runBody, unwind, Stmt.pure, go, CatchError, newAutoHandleChan, Lock, Unlock]
    · exact catchErrorIter_not_exit Wrap _ rfl
    · exact handleIter_not_exit f pick _ rfl
  · intro E W Wrap pick s
    refine ⟨rfl, rfl, ?_, ?_, ?_, rfl, rfl⟩
    · simp [HandleChain, runBody, unwind, Stmt.pure, go, CatchError, newAutoHandleChan]
    · exact catchErrorIter_not_exit Wrap _ rfl
    · exact handleChainIter_not_exit pick _ rfl
  · intro E W s h
    simp [CloseHandles, runBody, unwind, Stmt.pure, closeStop, Chan.close, h, Lock,
      deferUnlock, Unlock]

/-- A run of C8 on a fresh collection, whose stop signal is open. -/
theorem session_start_resets_stop_signal_witness :
    (fresh [] () : Sys Nat Unit).ec.AutoHandleChan.closed = false ∧
    (CloseHandles (fresh [] () : Sys Nat Unit)).panic = none :=
  ⟨rfl, session_start_resets_stop_signal.2.2 Nat Unit (fresh [] ()) rfl⟩

/-! ## Faults that reach the caller -/

/-- C9. The code at the failing input: when the queue push panics, `Add` gives
the panic to its caller and writes no log line, because the deferred function
that recovers is registered after the push. -/
theorem add_push_panic_escapes {E W : Type} (e : GoError E) (s : Sys E W) :
    (Add panickingPush e s).panic
      = some "runtime error: invalid memory address or nil pointer dereference" ∧
    (Add panickingPush e s).state.log = s.log :=
  ⟨rfl, rfl⟩

/-- C10. The code at the failing input: after `Add(nil)` on a fresh collection,
which returns normally, `Pop()` and `GetError()` both panic in the type assertion
on the nil item and nothing recovers the panic. -/
theorem pop_after_add_nil_faults {E W : Type} (Wrap : GoError E → GoError E)
    (log : List String) (w : W) :
    (Add queuePush none (fresh log w : Sys E W)).panic = none ∧
    (Pop Wrap (Add queuePush none (fresh log w : Sys E W)).state).panic
      = some "interface conversion: interface is nil, not error" ∧
    (GetError Wrap (Add queuePush none (fresh log w : Sys E W)).state).panic
      = some "interface conversion: interface is nil, not error" :=
  ⟨rfl, rfl, rfl⟩

end ErrorX
